import Mathlib

/-!
Verification of the device-communication and collection subsystem of the
YJ monitoring repository, as a shallow embedding in Lean.

Pure register codecs become Lean functions over `List ℕ` (each register a
16-bit word) returning `Option ℚ`; Python float arithmetic is modelled by
exact rationals with decimal rounding (`round` with two digits is Python's
round-half-even on the scaled value).  I/O-performing readers become
functions of an explicit environment (client availability, per-slave read
outcomes) that also emit an event trace recording lock acquisition and
register transactions.  The connection manager becomes a state-passing
function over a registry of clients and lock identifiers.
-/

/-- Round-half-to-even of a rational to an integer, the rounding used by
Python's built-in `round`. -/
def rhe (q : ℚ) : ℤ :=
  let f := q.floor
  let r := q - f
  if r < 1/2 then f
  else if 1/2 < r then f + 1
  else if f % 2 = 0 then f else f + 1

/-- Python's `round(x, 2)`: round to the closest multiple of 1/100, ties to
even. -/
def round2 (q : ℚ) : ℚ := (rhe (q * 100) : ℚ) / 100

namespace BoxProtocols

/-- Embedding of `parse_temperature` (src/sensors/box/protocols.py).
Selects the register at `index`, interprets it as signed 16-bit
two's-complement, scales by 0.1 and rounds to two decimals; fails when the
register list is too short. -/
def parse_temperature (registers : List ℕ) (index : ℕ) : Option ℚ :=
  if registers.length ≤ index then none
  else
    let raw0 : ℤ := (registers.getD index 0 : ℤ)
    let raw : ℤ := if (0x8000 : ℤ) ≤ raw0 then raw0 - 0x10000 else raw0
    some (round2 ((raw : ℚ) * (1/10)))

/-- Embedding of `parse_flow` (src/sensors/box/protocols.py).
Combines the two registers as `(registers[1] <<< 16) ||| registers[0]`,
scales by 0.01 and rounds to two decimals; fails with fewer than two
registers. -/
def parse_flow (registers : List ℕ) : Option ℚ :=
  if registers.length < 2 then none
  else
    let high_word := registers.getD 0 0
    let low_word := registers.getD 1 0
    let raw : ℕ := (low_word <<< 16) ||| high_word
    some (round2 ((raw : ℚ) * (1/100)))

/-- Modelled from the spec: the documented signed scale-0.1 encode puts an
int16 value into a 16-bit register as its two's-complement bit pattern.
This is the spec-side encode that `parse_temperature` is claimed to
invert. -/
def encode16 (v : ℤ) : ℕ := (v % 65536).toNat

end BoxProtocols

/-- Result of an IEEE-754 binary32 interpretation of a 32-bit pattern, with
finite values as exact rationals. -/
inductive F32 where
  | finite (q : ℚ)
  | inf
  | neginf
  | nan
deriving DecidableEq, Repr

/-- Decode a 32-bit pattern as an IEEE-754 binary32 value (the semantics of
`struct.unpack` with a big-endian float format on four bytes). -/
def f32Decode (w : ℕ) : F32 :=
  let s := (w / 2^31) % 2
  let e := (w / 2^23) % 2^8
  let m := w % 2^23
  if e = 255 then
    if m = 0 then (if s = 1 then .neginf else .inf) else .nan
  else
    let mag : ℚ := ((if e = 0 then 2 * m else (2^23 + m) * 2^e : ℕ) : ℚ) / 2^150
    .finite (if s = 1 then -mag else mag)

namespace PowerProtocols

/-- Embedding of `parse_power_meter` (src/sensors/power/protocols.py).
Packs the two registers high-then-low into four big-endian bytes, decodes
them as an IEEE-754 binary32 value, clamps negative results to 0 and rounds
to two decimals.  An oversized register makes the pack raise (caught, giving
`none`); an infinite decoded value makes `round` raise `OverflowError`
(caught, giving `none`); a NaN propagates. -/
def parse_power_meter (registers : List ℕ) : Option F32 :=
  if registers.length < 2 then none
  else
    let high_word := registers.getD 0 0
    let low_word := registers.getD 1 0
    if 65536 ≤ high_word ∨ 65536 ≤ low_word then none
    else
      let b0 := high_word / 256
      let b1 := high_word % 256
      let b2 := low_word / 256
      let b3 := low_word % 256
      let w := ((b0 * 256 + b1) * 256 + b2) * 256 + b3
      match f32Decode w with
      | .nan => some .nan
      | .inf => none
      | .neginf => some (.finite (round2 0))
      | .finite q => some (.finite (round2 (if q < 0 then 0 else q)))

end PowerProtocols

/-- Observable events of a reader run: asking the manager for a client,
acquiring/releasing the per-endpoint lock, and issuing one register
transaction on an endpoint. -/
inductive Ev where
  | getClient (key : String)
  | acquire (key : String)
  | release (key : String)
  | transact (key : String)
deriving DecidableEq, Repr

/-- A trace satisfies the locking discipline when every `transact` on a key
happens while that key's lock is held. -/
def transactsLocked : List String → List Ev → Bool
  | _, [] => true
  | held, Ev.getClient _ :: rest => transactsLocked held rest
  | held, Ev.acquire k :: rest => transactsLocked (k :: held) rest
  | held, Ev.release k :: rest => transactsLocked (held.erase k) rest
  | held, Ev.transact k :: rest => held.contains k && transactsLocked held rest

/-- Outcome of one `read_holding_registers` call: a protocol/transport error
(`result.isError()`) or a register payload. -/
inductive ReadOutcome where
  | error
  | ok (registers : List ℕ)
deriving DecidableEq, Repr

/-- Environment of one reader: whether the manager hands out a client for
the endpoint, and the register payload returned for each slave id. -/
structure ReadEnv where
  clientOk : Bool
  readResult : ℕ → ReadOutcome

/-- The decoded box sensor set returned by `read_all_sensors`: any subset
of the three fields may be absent. -/
structure SensorData where
  input_temp : Option ℚ
  output_temp : Option ℚ
  flow : Option ℚ
deriving DecidableEq, Repr

namespace BoxSensorReader

/-- The `"ip:port"` connection key used by `ModbusTcpManager`. -/
def endpointKey (ip : String) (port : ℕ) : String := ip ++ ":" ++ toString port

/-- Embedding of `BoxSensorReader._read_temperature` (src/sensors/box/reader.py):
get a client, and under the endpoint lock issue one register transaction and
parse the selected register.  Also returns the event trace of the run. -/
def read_temperature (env : ReadEnv) (key : String) (slave : ℕ) (index : ℕ) :
    Option ℚ × List Ev :=
  if env.clientOk = false then (none, [.getClient key])
  else
    match env.readResult slave with
    | .error => (none, [.getClient key, .acquire key, .transact key, .release key])
    | .ok regs =>
        (BoxProtocols.parse_temperature regs index,
         [.getClient key, .acquire key, .transact key, .release key])

/-- Embedding of `BoxSensorReader.read_flow` (src/sensors/box/reader.py). -/
def read_flow (env : ReadEnv) (key : String) (slave : ℕ) :
    Option ℚ × List Ev :=
  if env.clientOk = false then (none, [.getClient key])
  else
    match env.readResult slave with
    | .error => (none, [.getClient key, .acquire key, .transact key, .release key])
    | .ok regs =>
        (BoxProtocols.parse_flow regs,
         [.getClient key, .acquire key, .transact key, .release key])

/-- Embedding of `BoxSensorReader.read_all_sensors` (src/sensors/box/reader.py):
reads temperature 1, temperature 2 and flow in that order; returns `none`
only when all three sub-reads fail, otherwise the partially-populated
sensor set. -/
def read_all_sensors (env : ReadEnv) (key : String) (t1s t2s fls : ℕ) :
    Option SensorData × List Ev :=
  let r1 := read_temperature env key t1s 0
  let r2 := read_temperature env key t2s 0
  let r3 := read_flow env key fls
  let events := r1.2 ++ r2.2 ++ r3.2
  (if r1.1 = none ∧ r2.1 = none ∧ r3.1 = none then none
   else some ⟨r1.1, r2.1, r3.1⟩, events)

end BoxSensorReader

namespace PowerMeterReader

/-- Embedding of `PowerMeterReader.read_total_energy` (src/sensors/power/reader.py):
gets a client and issues the energy register transaction directly — no
endpoint lock is acquired.  The 32-bit value is `(high <<< 16) ||| low`
scaled by 0.01 and returned unrounded; a short payload raises (caught,
giving `none`). -/
def read_total_energy (env : ReadEnv) (key : String) (slave : ℕ) :
    Option ℚ × List Ev :=
  if env.clientOk = false then (none, [.getClient key])
  else
    match env.readResult slave with
    | .error => (none, [.getClient key, .transact key])
    | .ok regs =>
        if regs.length < 2 then (none, [.getClient key, .transact key])
        else
          let high_word := regs.getD 0 0
          let low_word := regs.getD 1 0
          let raw : ℕ := (high_word <<< 16) ||| low_word
          (some ((raw : ℚ) * (1/100)), [.getClient key, .transact key])

/-- One meter's configuration entry. -/
structure MeterConfig where
  device_id : String
  slave_id : ℕ
  enabled : Bool
deriving DecidableEq, Repr

/-- Embedding of the `PowerMeterData` dataclass (src/sensors/power/models.py),
without the wall-clock timestamp. -/
structure PowerMeterData where
  device_id : String
  total_energy : Option ℚ
deriving DecidableEq, Repr

/-- Embedding of `PowerMeterReader.read_all_meters` (src/sensors/power/reader.py):
skips disabled meters, and adds a map entry only when the energy read
succeeded. -/
def read_all_meters (env : ReadEnv) (key : String) :
    List MeterConfig → List (String × PowerMeterData)
  | [] => []
  | mc :: rest =>
    if mc.enabled = false then read_all_meters env key rest
    else
      match (read_total_energy env key mc.slave_id).1 with
      | none => read_all_meters env key rest
      | some e => (mc.device_id, ⟨mc.device_id, some e⟩) :: read_all_meters env key rest

end PowerMeterReader

/-- A Python dictionary value as it flows between the power collector and
the box collector: the collector's summary mixes counters, record lists and
error lists; `noneV` stands for Python's `None`. -/
inductive PMVal where
  | noneV
  | num (q : ℚ)
  | cnt (n : ℕ)
  | dataList (l : List PowerMeterReader.PowerMeterData)
  | strList (l : List String)
deriving DecidableEq, Repr

/-- The `v is not None` test applied to a dictionary value. -/
def PMVal.isNotNone : PMVal → Bool
  | .noneV => false
  | _ => true

/-- First-match association lookup, the model of a Python dict keyed by
strings (`device_id in d` / `d[device_id]`). -/
def alookup {α : Type} (key : String) : List (String × α) → Option α
  | [] => none
  | p :: rest => if p.1 = key then some p.2 else alookup key rest

namespace PowerMeterCollector

/-- Embedding of `PowerMeterCollector.collect_all` (src/sensors/power/collector.py):
reads all meters, stores each reading through the persistence collaborator,
and returns the summary dictionary with keys `success_count`, `total_count`,
`data` and `errors` — not a per-device map. -/
def collect_all (env : ReadEnv) (key : String)
    (configs : List PowerMeterReader.MeterConfig)
    (insertOk : PowerMeterReader.PowerMeterData → Bool) :
    List (String × PMVal) :=
  let read_result := PowerMeterReader.read_all_meters env key configs
  let data_list := read_result.map (fun p => p.2)
  let step := data_list.foldl
    (fun (acc : ℕ × List PowerMeterReader.PowerMeterData × List String) d =>
      if insertOk d then (acc.1 + 1, acc.2.1 ++ [d], acc.2.2)
      else (acc.1, acc.2.1, acc.2.2 ++ ["[" ++ d.device_id ++ "] 데이터 저장 실패"]))
    (0, [], [])
  [("success_count", PMVal.cnt step.1),
   ("total_count", PMVal.cnt data_list.length),
   ("data", PMVal.dataList step.2.1),
   ("errors", PMVal.strList step.2.2)]

end PowerMeterCollector

/-- One box device's configuration after defaulting, as read by
`collect_heatpump` from the config service. -/
structure BoxDeviceConfig where
  enabled : Bool
  ip : String
  port : ℕ
  temp1_slave_id : ℕ
  temp2_slave_id : ℕ
  flow_slave_id : ℕ
deriving DecidableEq, Repr

/-- The heat-pump row handed to `insert_heatpump_data`.  The energy field
holds whatever dictionary value the power-meter lookup produced. -/
structure HeatpumpRecord where
  device_id : String
  input_temp : Option ℚ
  output_temp : Option ℚ
  flow : Option ℚ
  energy : Option PMVal
deriving DecidableEq, Repr

/-- The ground-pipe row handed to `insert_groundpipe_data`. -/
structure GroundpipeRecord where
  device_id : String
  input_temp : Option ℚ
  output_temp : Option ℚ
  flow : Option ℚ
deriving DecidableEq, Repr

/-- Environment of the box collector: the config service, the reader
behaviour for a device configuration, and the persistence collaborator's
success answers. -/
structure BoxEnv where
  deviceConfig : String → Option BoxDeviceConfig
  readEnv : BoxDeviceConfig → ReadEnv
  insertHeatpumpOk : HeatpumpRecord → Bool
  insertGroundpipeOk : GroundpipeRecord → Bool

namespace BoxSensorCollector

/-- Embedding of `BoxSensorCollector.collect_heatpump` (src/sensors/box/collector.py):
returns the per-device success flag and the record passed to persistence
(if any).  A missing or disabled configuration and a fully-failed sensor
read yield `false` with nothing persisted; otherwise the record is stored
with the energy value found under this device id in the passed dictionary
(absent key: no energy). -/
def collect_heatpump (env : BoxEnv) (device_id : String)
    (power_meter_data : Option (List (String × PMVal))) :
    Bool × Option HeatpumpRecord :=
  match env.deviceConfig device_id with
  | none => (false, none)
  | some cfg =>
    if cfg.enabled = false then (false, none)
    else
      let key := BoxSensorReader.endpointKey cfg.ip cfg.port
      match (BoxSensorReader.read_all_sensors (env.readEnv cfg) key
              cfg.temp1_slave_id cfg.temp2_slave_id cfg.flow_slave_id).1 with
      | none => (false, none)
      | some sd =>
        let energy : Option PMVal :=
          match power_meter_data with
          | none => none
          | some m => alookup device_id m
        let record : HeatpumpRecord :=
          ⟨device_id, sd.input_temp, sd.output_temp, sd.flow, energy⟩
        (env.insertHeatpumpOk record, some record)

/-- Embedding of `BoxSensorCollector.collect_groundpipe`
(src/sensors/box/collector.py): as `collect_heatpump` but with no energy
attachment. -/
def collect_groundpipe (env : BoxEnv) (device_id : String) :
    Bool × Option GroundpipeRecord :=
  match env.deviceConfig device_id with
  | none => (false, none)
  | some cfg =>
    if cfg.enabled = false then (false, none)
    else
      let key := BoxSensorReader.endpointKey cfg.ip cfg.port
      match (BoxSensorReader.read_all_sensors (env.readEnv cfg) key
              cfg.temp1_slave_id cfg.temp2_slave_id cfg.flow_slave_id).1 with
      | none => (false, none)
      | some sd =>
        let record : GroundpipeRecord :=
          ⟨device_id, sd.input_temp, sd.output_temp, sd.flow⟩
        (env.insertGroundpipeOk record, some record)

/-- Embedding of `BoxSensorCollector.collect_all_heatpumps`
(src/sensors/box/collector.py): every configured entry with a truthy
device id gets a map entry carrying its success flag — including disabled
devices, whose `collect_heatpump` call returns `false`.  Also collects the
records passed to persistence. -/
def collect_all_heatpumps (env : BoxEnv)
    (power_meter_data : Option (List (String × PMVal))) :
    List (Option String) → List (String × Bool) × List HeatpumpRecord
  | [] => ([], [])
  | oid :: rest =>
    let tail := collect_all_heatpumps env power_meter_data rest
    match oid with
    | none => tail
    | some d =>
      if d = "" then tail
      else
        let r := collect_heatpump env d power_meter_data
        ((d, r.1) :: tail.1, r.2.toList ++ tail.2)

/-- Embedding of `BoxSensorCollector.collect_all_groundpipes`
(src/sensors/box/collector.py). -/
def collect_all_groundpipes (env : BoxEnv) :
    List (Option String) → List (String × Bool) × List GroundpipeRecord
  | [] => ([], [])
  | oid :: rest =>
    let tail := collect_all_groundpipes env rest
    match oid with
    | none => tail
    | some d =>
      if d = "" then tail
      else
        let r := collect_groundpipe env d
        ((d, r.1) :: tail.1, r.2.toList ++ tail.2)

/-- Embedding of `BoxSensorCollector.collect_all` (src/sensors/box/collector.py). -/
def collect_all (env : BoxEnv) (hpIds gpIds : List (Option String))
    (power_meter_data : Option (List (String × PMVal))) :
    (List (String × Bool) × List HeatpumpRecord) ×
    (List (String × Bool) × List GroundpipeRecord) :=
  (collect_all_heatpumps env power_meter_data hpIds,
   collect_all_groundpipes env gpIds)

end BoxSensorCollector

/-- A registered transport handle: an identity and its reported connection
state. -/
structure MClient where
  cid : ℕ
  connected : Bool
deriving DecidableEq, Repr

/-- The manager's registry: clients and per-endpoint lock identifiers keyed
by `"ip:port"`, plus a counter supplying fresh identities. -/
structure ManagerState where
  clients : List (String × MClient)
  locks : List (String × ℕ)
  nextId : ℕ
deriving DecidableEq, Repr

/-- Delete a key from an association list (`del d[k]`, tolerant of absent
keys). -/
def aerase {α : Type} (key : String) (l : List (String × α)) : List (String × α) :=
  l.filter (fun p => p.1 != key)

/-- Overwrite a key in an association list (`d[k] = v`). -/
def aset {α : Type} (key : String) (v : α) (l : List (String × α)) : List (String × α) :=
  aerase key l ++ [(key, v)]

namespace ModbusTcpManager

/-- The tail of `ModbusTcpManager.get_client` (src/core/modbus_tcp_manager.py):
create a fresh client and try to connect; on success register the client
and a freshly created lock (overwriting any existing one), on failure
register nothing and return `None`. -/
def attempt_connect (st : ManagerState) (key : String) (connectOk : Bool) :
    Option MClient × ManagerState :=
  if connectOk then
    let c : MClient := ⟨st.nextId, true⟩
    (some c, ⟨aset key c st.clients, aset key (st.nextId + 1) st.locks, st.nextId + 2⟩)
  else (none, st)

/-- Embedding of `ModbusTcpManager.get_client` (src/core/modbus_tcp_manager.py):
reuse a registered, connected client unchanged; otherwise close and drop
any stale client and its lock, then attempt a fresh connection. -/
def get_client (st : ManagerState) (key : String) (connectOk : Bool) :
    Option MClient × ManagerState :=
  match alookup key st.clients with
  | some c =>
    if c.connected then (some c, st)
    else
      attempt_connect ⟨aerase key st.clients, aerase key st.locks, st.nextId⟩ key connectOk
  | none => attempt_connect st key connectOk

/-- Embedding of `ModbusTcpManager.get_lock` (src/core/modbus_tcp_manager.py):
return the endpoint's lock, creating it only when absent. -/
def get_lock (st : ManagerState) (key : String) : ℕ × ManagerState :=
  match alookup key st.locks with
  | some l => (l, st)
  | none => (st.nextId, ⟨st.clients, aset key st.nextId st.locks, st.nextId + 1⟩)

end ModbusTcpManager

/-- The per-service statistics dictionary, without the wall-clock
timestamps. -/
structure CollectionStats where
  total_collections : ℕ
  successful_collections : ℕ
  failed_collections : ℕ
  last_error : Option String
deriving DecidableEq, Repr

namespace BoxSensorService

/-- Embedding of `BoxSensorService._collect_once` (src/sensors/box/service.py):
bump `total` at cycle start; on a cycle-level exception bump `fail` and set
`last_error`; otherwise bump `success` when at least one device in either
family map succeeded, else bump `fail`. -/
def collect_once (stats : CollectionStats)
    (outcome : Except String ((List (String × Bool) × List HeatpumpRecord) ×
                              (List (String × Bool) × List GroundpipeRecord))) :
    CollectionStats :=
  let s := { stats with total_collections := stats.total_collections + 1 }
  match outcome with
  | .error e =>
      { s with failed_collections := s.failed_collections + 1, last_error := some e }
  | .ok results =>
      let total_success := (results.1.1.filter (fun p => p.2)).length +
                           (results.2.1.filter (fun p => p.2)).length
      if 0 < total_success then
        { s with successful_collections := s.successful_collections + 1 }
      else
        { s with failed_collections := s.failed_collections + 1 }

end BoxSensorService

namespace PowerMeterService

/-- Embedding of `PowerMeterService._collect_once` (src/sensors/power/service.py):
bump `total` at cycle start; on a cycle-level exception bump `fail` and set
`last_error`; otherwise count the values of the returned dictionary that
are not `None` — the collector returns its four-entry summary dictionary,
so this counts summary entries, not devices. -/
def collect_once (stats : CollectionStats)
    (outcome : Except String (List (String × PMVal))) : CollectionStats :=
  let s := { stats with total_collections := stats.total_collections + 1 }
  match outcome with
  | .error e =>
      { s with failed_collections := s.failed_collections + 1, last_error := some e }
  | .ok data =>
      let success_count := (data.filter (fun p => p.2.isNotNone)).length
      if 0 < success_count then
        { s with successful_collections := s.successful_collections + 1 }
      else
        { s with failed_collections := s.failed_collections + 1 }

end PowerMeterService

namespace DataCollectionService

/-- Embedding of `DataCollectionService._collect_once`
(src/services/data_collection_service.py): step 1 runs the power collector
to completion, step 2 passes its return value — the summary dictionary —
to the box collector as `power_meter_data`. -/
def collect_once (envP : ReadEnv) (powerKey : String)
    (meterConfigs : List PowerMeterReader.MeterConfig)
    (insertOk : PowerMeterReader.PowerMeterData → Bool)
    (envB : BoxEnv) (hpIds gpIds : List (Option String)) :
    List (String × PMVal) ×
    ((List (String × Bool) × List HeatpumpRecord) ×
     (List (String × Bool) × List GroundpipeRecord)) :=
  let power_meter_data := PowerMeterCollector.collect_all envP powerKey meterConfigs insertOk
  let box_results := BoxSensorCollector.collect_all envB hpIds gpIds (some power_meter_data)
  (power_meter_data, box_results)

end DataCollectionService

/-- Test fixture: a reader environment in which only slave 1 answers (with
an all-zero three-register payload), so temperature 2 and flow fail. -/
def testReadEnvPartial : ReadEnv :=
  ⟨true, fun s => if s = 1 then .ok [0x0000, 0x0000, 0x0000] else .error⟩

/-- Test fixture: a reader environment in which every transaction succeeds
with a two-register all-zero payload. -/
def testReadEnvOk : ReadEnv := ⟨true, fun _ => .ok [0x0000, 0x0000]⟩

/-- Test fixture: a reader environment in which every transaction errors. -/
def testReadEnvFail : ReadEnv := ⟨true, fun _ => .error⟩

/-- Test fixture: a power-meter environment answering `[0x0000, 12345]`,
i.e. 123.45 kWh in the scaled-integer encoding. -/
def testPowerEnv : ReadEnv := ⟨true, fun _ => .ok [0x0000, 12345]⟩

/-- Test fixture: one enabled power meter named `HP_1` on slave 1. -/
def testMeterConfigs : List PowerMeterReader.MeterConfig := [⟨"HP_1", 1, true⟩]

/-- Test fixture: one disabled power meter named `HP_1` on slave 1. -/
def testMeterConfigsDisabled : List PowerMeterReader.MeterConfig :=
  [⟨"HP_1", 1, false⟩]

/-- Test fixture: a manager registry holding a lock for endpoint `k` but no
client, with identity counter 1. -/
def testManagerState : ManagerState := ⟨[], [("k", 0)], 1⟩

/-- Test fixture: a manager registry holding a disconnected client and a
lock for endpoint `k`. -/
def testManagerStateDisc : ManagerState := ⟨[("k", ⟨0, false⟩)], [("k", 0)], 1⟩

/-- Test fixture: an enabled heat-pump box configuration. -/
def testBoxCfg : BoxDeviceConfig := ⟨true, "192.168.0.81", 8899, 1, 2, 3⟩

/-- Test fixture: the same box configuration with `enabled = false`. -/
def testBoxCfgDisabled : BoxDeviceConfig := ⟨false, "192.168.0.81", 8899, 1, 2, 3⟩

/-- Test fixture: a box-collector environment with one enabled device
`HP_1` read through `testReadEnvPartial` and an always-succeeding
persistence collaborator. -/
def testBoxEnv : BoxEnv :=
  ⟨fun d => if d = "HP_1" then some testBoxCfg else none,
   fun _ => testReadEnvPartial, fun _ => true, fun _ => true⟩

/-- Test fixture: as `testBoxEnv` but with `HP_1` disabled. -/
def testBoxEnvDisabled : BoxEnv :=
  ⟨fun d => if d = "HP_1" then some testBoxCfgDisabled else none,
   fun _ => testReadEnvPartial, fun _ => true, fun _ => true⟩

-- ════════════════════════════════════════════════════════════════════
-- Theorems
-- ════════════════════════════════════════════════════════════════════

theorem rat_floor_intCast (z : ℤ) : Rat.floor (z : ℚ) = z := by
  rw [Rat.floor_def' (z : ℚ)]
  simp

theorem rhe_intCast (z : ℤ) : rhe (z : ℚ) = z := by
  unfold rhe
  simp [rat_floor_intCast]

theorem round2_int_mul_tenth (v : ℤ) :
    round2 ((v : ℚ) * (1/10)) = (v : ℚ) / 10 := by
  unfold round2
  have h : ((v : ℚ) * (1/10)) * 100 = ((10 * v : ℤ) : ℚ) := by
    push_cast; ring
  rw [h, rhe_intCast]
  push_cast; ring

theorem round2_int_mul_hundredth (v : ℤ) :
    round2 ((v : ℚ) * (1/100)) = (v : ℚ) / 100 := by
  unfold round2
  have h : ((v : ℚ) * (1/100)) * 100 = (v : ℚ) := by ring
  rw [h]
  rw [rhe_intCast]

theorem lor_shiftLeft_eq_add (a b : ℕ) (hb : b < 2^16) :
    (a <<< 16) ||| b = a * 2^16 + b := by
  rw [Nat.shiftLeft_eq, Nat.mul_comm a (2^16)]
  exact (Nat.mul_add_lt_is_or hb a).symm

theorem round2_natCast_mul_hundredth (n : ℕ) :
    round2 ((n : ℚ) * (1/100)) = (n : ℚ) / 100 := by
  have h := round2_int_mul_hundredth (n : ℤ)
  push_cast at h
  exact h

/-- Evaluation lemma for `parse_flow` on any well-formed register pair:
the raw 32-bit magnitude is `registers[1] * 2^16 + registers[0]` and the
scaled result is exact (no rounding occurs at two decimals). -/
theorem parse_flow_eq (registers : List ℕ) (r0 r1 : ℕ)
    (hlen : 2 ≤ registers.length) (h0 : registers.getD 0 0 = r0)
    (h1 : registers.getD 1 0 = r1) (hb0 : r0 < 65536) :
    BoxProtocols.parse_flow registers = some (((r1 * 65536 + r0 : ℕ) : ℚ) / 100) := by
  simp only [BoxProtocols.parse_flow]
  rw [if_neg (Nat.not_lt.mpr hlen)]
  simp only [h0, h1]
  rw [lor_shiftLeft_eq_add r1 r0 hb0]
  have h216 : (2:ℕ)^16 = 65536 := by norm_num
  rw [h216, round2_natCast_mul_hundredth]

/-- Evaluation lemma for `parse_temperature`: on a register holding the
two's-complement encoding of an int16 value `v`, the result is exactly
`v/10`. -/
theorem parse_temperature_eq_signed (registers : List ℕ) (i : ℕ) (v : ℤ)
    (hi : i < registers.length) (hlo : -32768 ≤ v) (hhi : v ≤ 32767)
    (henc : registers.getD i 0 = BoxProtocols.encode16 v) :
    BoxProtocols.parse_temperature registers i = some ((v : ℚ) / 10) := by
  simp only [BoxProtocols.parse_temperature]
  rw [if_neg (Nat.not_le.mpr hi), henc]
  simp only [BoxProtocols.encode16]
  rcases le_or_lt 0 v with hv | hv
  · have hmod : v % 65536 = v := by omega
    have hcast : (((v % 65536).toNat : ℕ) : ℤ) = v := by
      rw [hmod]; exact Int.toNat_of_nonneg hv
    rw [hcast, if_neg (by omega), round2_int_mul_tenth]
  · have hmod : v % 65536 = v + 65536 := by omega
    have hcast : (((v % 65536).toNat : ℕ) : ℤ) = v + 65536 := by
      rw [hmod]; exact Int.toNat_of_nonneg (by omega)
    rw [hcast, if_pos (by omega)]
    have hsub : v + 65536 - 0x10000 = v := by omega
    rw [hsub, round2_int_mul_tenth]

theorem round2_zero : round2 0 = 0 := by
  unfold round2
  rw [show (0 : ℚ) * 100 = ((0 : ℤ) : ℚ) by norm_num, rhe_intCast]
  norm_num

theorem round2_natCast_div_hundred (n : ℕ) :
    round2 ((n : ℚ) / 100) = (n : ℚ) / 100 := by
  have heq : (n : ℚ) * (1/100) = (n : ℚ) / 100 := by ring
  have h := round2_natCast_mul_hundredth n
  rw [heq] at h
  exact h

/-- Claim C5: for every register list with at least two elements,
`parse_flow` combines the two 16-bit registers in the reversed word order —
the raw magnitude is `registers[1] * 2^16 + registers[0]` — and scales by
0.01 with no loss at two decimals; in particular
`parse_flow [0x0000, 0x0000] = 0.0` and
`parse_flow [0xFEC6, 0x0007] = 5239.74`. -/
theorem claim_C5 (registers : List ℕ) (r0 r1 : ℕ)
    (hlen : 2 ≤ registers.length) (h0 : registers.getD 0 0 = r0)
    (h1 : registers.getD 1 0 = r1) (hb0 : r0 < 65536) :
    BoxProtocols.parse_flow registers = some (((r1 * 65536 + r0 : ℕ) : ℚ) / 100) ∧
    BoxProtocols.parse_flow [0x0000, 0x0000] = some 0 ∧
    BoxProtocols.parse_flow [0xFEC6, 0x0007] = some ((523974 : ℚ) / 100) := by
  refine ⟨parse_flow_eq registers r0 r1 hlen h0 h1 hb0, ?_, ?_⟩
  · rw [parse_flow_eq [0x0000, 0x0000] 0 0 (by decide) rfl rfl (by decide)]
    norm_num
  · rw [parse_flow_eq [0xFEC6, 0x0007] 0xFEC6 0x0007 (by decide) rfl rfl (by decide)]
    norm_num

/-- Witness for C5 at the spec's concrete register pair. -/
theorem claim_C5_witness :
    2 ≤ ([0xFEC6, 0x0007] : List ℕ).length ∧
    ([0xFEC6, 0x0007] : List ℕ).getD 0 0 = 0xFEC6 ∧
    ([0xFEC6, 0x0007] : List ℕ).getD 1 0 = 0x0007 ∧
    (0xFEC6 : ℕ) < 65536 ∧
    (BoxProtocols.parse_flow [0xFEC6, 0x0007]
        = some (((0x0007 * 65536 + 0xFEC6 : ℕ) : ℚ) / 100) ∧
     BoxProtocols.parse_flow [0x0000, 0x0000] = some 0 ∧
     BoxProtocols.parse_flow [0xFEC6, 0x0007] = some ((523974 : ℚ) / 100)) :=
  ⟨by decide, rfl, rfl, by decide,
   claim_C5 [0xFEC6, 0x0007] 0xFEC6 0x0007 (by decide) rfl rfl (by decide)⟩

/-- Claim C6: `parse_temperature` interprets an in-range register as signed
two's-complement scaled by 0.1, exactly inverting the documented encode on
the full int16 range (so the two-decimal rounding is lossless there); and
every 16-bit register value is the encoding of some int16 value. -/
theorem claim_C6 (registers : List ℕ) (i : ℕ) (v : ℤ)
    (hi : i < registers.length) (hlo : -32768 ≤ v) (hhi : v ≤ 32767)
    (henc : registers.getD i 0 = BoxProtocols.encode16 v) :
    BoxProtocols.parse_temperature registers i = some ((v : ℚ) / 10) ∧
    ∀ r : ℕ, r < 65536 →
      ∃ w : ℤ, -32768 ≤ w ∧ w ≤ 32767 ∧ BoxProtocols.encode16 w = r := by
  refine ⟨parse_temperature_eq_signed registers i v hi hlo hhi henc, ?_⟩
  intro r hr
  by_cases hcase : r < 32768
  · exact ⟨(r : ℤ), by omega, by omega, by unfold BoxProtocols.encode16; omega⟩
  · exact ⟨(r : ℤ) - 65536, by omega, by omega, by unfold BoxProtocols.encode16; omega⟩

/-- Witness for C6 at register 0xFF9C, the encoding of −100 (−10.0 °C). -/
theorem claim_C6_witness :
    0 < ([0xFF9C, 0x0000, 0x0000] : List ℕ).length ∧
    (-32768 : ℤ) ≤ -100 ∧ (-100 : ℤ) ≤ 32767 ∧
    ([0xFF9C, 0x0000, 0x0000] : List ℕ).getD 0 0 = BoxProtocols.encode16 (-100) ∧
    (BoxProtocols.parse_temperature [0xFF9C, 0x0000, 0x0000] 0
        = some (((-100 : ℤ) : ℚ) / 10) ∧
     ∀ r : ℕ, r < 65536 →
       ∃ w : ℤ, -32768 ≤ w ∧ w ≤ 32767 ∧ BoxProtocols.encode16 w = r) :=
  ⟨by decide, by decide, by decide, by decide,
   claim_C6 [0xFF9C, 0x0000, 0x0000] 0 (-100) (by decide) (by decide) (by decide)
     (by decide)⟩

/-- Evaluation lemma for `parse_power_meter` on well-formed registers: the
byte-packed word equals `high * 2^16 + low` and the result follows the
`f32Decode` case split. -/
theorem parse_power_meter_eq (registers : List ℕ) (h l : ℕ)
    (hlen : 2 ≤ registers.length) (h0 : registers.getD 0 0 = h)
    (h1 : registers.getD 1 0 = l) (hbh : h < 65536) (hbl : l < 65536) :
    PowerProtocols.parse_power_meter registers =
      (match f32Decode (h * 65536 + l) with
       | .nan => some .nan
       | .inf => none
       | .neginf => some (.finite (round2 0))
       | .finite q => some (.finite (round2 (if q < 0 then 0 else q)))) := by
  simp only [PowerProtocols.parse_power_meter]
  rw [if_neg (Nat.not_lt.mpr hlen)]
  simp only [h0, h1]
  rw [if_neg (by omega)]
  have hw : ((h / 256 * 256 + h % 256) * 256 + l / 256) * 256 + l % 256
      = h * 65536 + l := by omega
  rw [hw]

/-- Claim C8: the float energy decoding packs the first register as the
high word of a big-endian IEEE-754 binary32 value, clamps negatives to 0
and rounds to two decimals; the integer energy decoding computes
`((high <<< 16) ||| low) * 0.01`, a value already exact at two decimals. -/
theorem claim_C8 (registers : List ℕ) (h l : ℕ)
    (hlen : 2 ≤ registers.length) (h0 : registers.getD 0 0 = h)
    (h1 : registers.getD 1 0 = l) (hbh : h < 65536) (hbl : l < 65536) :
    ((h <<< 16) ||| l = h * 65536 + l) ∧
    (∀ q : ℚ, f32Decode (h * 65536 + l) = .finite q → 0 ≤ q →
      PowerProtocols.parse_power_meter registers = some (.finite (round2 q))) ∧
    (∀ q : ℚ, f32Decode (h * 65536 + l) = .finite q → q < 0 →
      PowerProtocols.parse_power_meter registers = some (.finite 0)) ∧
    (f32Decode (h * 65536 + l) = .neginf →
      PowerProtocols.parse_power_meter registers = some (.finite 0)) ∧
    (∀ (env : ReadEnv) (key : String) (slave : ℕ),
      env.clientOk = true → env.readResult slave = .ok registers →
      (PowerMeterReader.read_total_energy env key slave).1
        = some (((h * 65536 + l : ℕ) : ℚ) / 100) ∧
      round2 (((h * 65536 + l : ℕ) : ℚ) / 100) = ((h * 65536 + l : ℕ) : ℚ) / 100) := by
  have hmain := parse_power_meter_eq registers h l hlen h0 h1 hbh hbl
  refine ⟨?_, ?_, ?_, ?_, ?_⟩
  · rw [lor_shiftLeft_eq_add h l hbl]; norm_num
  · intro q hq hsign
    rw [hmain, hq]
    simp only [if_neg (not_lt.mpr hsign)]
  · intro q hq hsign
    rw [hmain, hq]
    simp only [if_pos hsign, round2_zero]
  · intro hq
    rw [hmain, hq, round2_zero]
  · intro env key slave hc hr
    constructor
    · simp only [PowerMeterReader.read_total_energy, hc, hr]
      rw [if_neg (by simp), if_neg (by omega)]
      simp only [h0, h1]
      rw [lor_shiftLeft_eq_add h l hbl]
      norm_num
      ring
    · exact round2_natCast_div_hundred (h * 65536 + l)

/-- Witness for C8 at registers [0x42F6, 0xE666] (the float32 encoding of
123.45 up to representation error). -/
theorem claim_C8_witness :
    2 ≤ ([0x42F6, 0xE666] : List ℕ).length ∧
    ([0x42F6, 0xE666] : List ℕ).getD 0 0 = 0x42F6 ∧
    ([0x42F6, 0xE666] : List ℕ).getD 1 0 = 0xE666 ∧
    (0x42F6 : ℕ) < 65536 ∧ (0xE666 : ℕ) < 65536 ∧
    (((0x42F6 <<< 16) ||| 0xE666 = 0x42F6 * 65536 + 0xE666) ∧
     (∀ q : ℚ, f32Decode (0x42F6 * 65536 + 0xE666) = .finite q → 0 ≤ q →
       PowerProtocols.parse_power_meter [0x42F6, 0xE666]
          = some (.finite (round2 q))) ∧
     (∀ q : ℚ, f32Decode (0x42F6 * 65536 + 0xE666) = .finite q → q < 0 →
       PowerProtocols.parse_power_meter [0x42F6, 0xE666] = some (.finite 0)) ∧
     (f32Decode (0x42F6 * 65536 + 0xE666) = .neginf →
       PowerProtocols.parse_power_meter [0x42F6, 0xE666] = some (.finite 0)) ∧
     (∀ (env : ReadEnv) (key : String) (slave : ℕ),
       env.clientOk = true → env.readResult slave = .ok [0x42F6, 0xE666] →
       (PowerMeterReader.read_total_energy env key slave).1
          = some (((0x42F6 * 65536 + 0xE666 : ℕ) : ℚ) / 100) ∧
       round2 (((0x42F6 * 65536 + 0xE666 : ℕ) : ℚ) / 100)
          = ((0x42F6 * 65536 + 0xE666 : ℕ) : ℚ) / 100)) :=
  ⟨by decide, rfl, rfl, by decide, by decide,
   claim_C8 [0x42F6, 0xE666] 0x42F6 0xE666 (by decide) rfl rfl (by decide) (by decide)⟩

/-- Claim C4: `read_all_sensors` fails exactly when all three sub-reads
fail; otherwise each failed sub-read's field is absent and each successful
one present, an all-absent reading is never emitted as successful, and —
with a cooperating persistence collaborator — an enabled device's
collection succeeds exactly when its sensor read was not a total
failure. -/
theorem claim_C4 (env : ReadEnv) (key : String) (t1s t2s fls : ℕ) :
    (((BoxSensorReader.read_all_sensors env key t1s t2s fls).1 = none ↔
      ((BoxSensorReader.read_temperature env key t1s 0).1 = none ∧
       (BoxSensorReader.read_temperature env key t2s 0).1 = none ∧
       (BoxSensorReader.read_flow env key fls).1 = none)) ∧
     (∀ sd, (BoxSensorReader.read_all_sensors env key t1s t2s fls).1 = some sd →
        sd.input_temp = (BoxSensorReader.read_temperature env key t1s 0).1 ∧
        sd.output_temp = (BoxSensorReader.read_temperature env key t2s 0).1 ∧
        sd.flow = (BoxSensorReader.read_flow env key fls).1 ∧
        ¬(sd.input_temp = none ∧ sd.output_temp = none ∧ sd.flow = none))) ∧
    (∀ (envB : BoxEnv) (d : String) (cfg : BoxDeviceConfig)
       (pm : Option (List (String × PMVal))),
      envB.deviceConfig d = some cfg → cfg.enabled = true →
      (∀ r, envB.insertHeatpumpOk r = true) →
      ((BoxSensorCollector.collect_heatpump envB d pm).1 = true ↔
        (BoxSensorReader.read_all_sensors (envB.readEnv cfg)
           (BoxSensorReader.endpointKey cfg.ip cfg.port)
           cfg.temp1_slave_id cfg.temp2_slave_id cfg.flow_slave_id).1 ≠ none)) := by
  refine ⟨⟨?_, ?_⟩, ?_⟩
  · simp only [BoxSensorReader.read_all_sensors]
    split_ifs with hc
    · exact iff_of_true rfl hc
    · exact iff_of_false (by simp) hc
  · intro sd
    simp only [BoxSensorReader.read_all_sensors]
    split_ifs with hc
    · intro habs; exact absurd habs (by simp)
    · intro hsome
      have hsd : sd = ⟨(BoxSensorReader.read_temperature env key t1s 0).1,
                       (BoxSensorReader.read_temperature env key t2s 0).1,
                       (BoxSensorReader.read_flow env key fls).1⟩ := by
        injection hsome with h'
        exact h'.symm
      subst hsd
      exact ⟨rfl, rfl, rfl, hc⟩
  · intro envB d cfg pm hcfg hen hins
    simp only [BoxSensorCollector.collect_heatpump, hcfg]
    rw [if_neg (by simp [hen])]
    cases hread : (BoxSensorReader.read_all_sensors (envB.readEnv cfg)
        (BoxSensorReader.endpointKey cfg.ip cfg.port)
        cfg.temp1_slave_id cfg.temp2_slave_id cfg.flow_slave_id).1 with
    | none => simp [hread]
    | some sd => simp [hread, hins]

/-- Witness for C4: device `HP_1` with only the temperature-1 sub-read
succeeding (2-of-3 failing) under an always-succeeding persistence
collaborator. -/
theorem claim_C4_witness :
    testBoxEnv.deviceConfig "HP_1" = some testBoxCfg ∧
    testBoxCfg.enabled = true ∧
    (∀ r, testBoxEnv.insertHeatpumpOk r = true) ∧
    ((BoxSensorCollector.collect_heatpump testBoxEnv "HP_1" none).1 = true ↔
      (BoxSensorReader.read_all_sensors (testBoxEnv.readEnv testBoxCfg)
         (BoxSensorReader.endpointKey testBoxCfg.ip testBoxCfg.port)
         testBoxCfg.temp1_slave_id testBoxCfg.temp2_slave_id
         testBoxCfg.flow_slave_id).1 ≠ none) :=
  ⟨rfl, rfl, fun _ => rfl,
   (claim_C4 (testBoxEnv.readEnv testBoxCfg)
      (BoxSensorReader.endpointKey testBoxCfg.ip testBoxCfg.port)
      testBoxCfg.temp1_slave_id testBoxCfg.temp2_slave_id
      testBoxCfg.flow_slave_id).2
     testBoxEnv "HP_1" testBoxCfg none rfl rfl (fun _ => rfl)⟩

theorem read_temperature_trace (env : ReadEnv) (key : String) (slave i : ℕ) :
    (BoxSensorReader.read_temperature env key slave i).2
      = if env.clientOk = false then [.getClient key]
        else [.getClient key, .acquire key, .transact key, .release key] := by
  unfold BoxSensorReader.read_temperature
  split_ifs with h
  · rfl
  · cases env.readResult slave <;> rfl

theorem read_flow_trace (env : ReadEnv) (key : String) (slave : ℕ) :
    (BoxSensorReader.read_flow env key slave).2
      = if env.clientOk = false then [.getClient key]
        else [.getClient key, .acquire key, .transact key, .release key] := by
  unfold BoxSensorReader.read_flow
  split_ifs with h
  · rfl
  · cases env.readResult slave <;> rfl

theorem locked_block (k : String) :
    transactsLocked []
      [Ev.getClient k, Ev.acquire k, Ev.transact k, Ev.release k] = true := by
  simp [transactsLocked]

/-- Claim C2 (amended): every box-family register transaction — temperature
and flow — is issued while holding the endpoint lock, both per sub-read and
across a whole `read_all_sensors` run.  (The power energy transaction does
not lock; see the counterexample.) -/
theorem claim_C2 :
    (∀ (env : ReadEnv) (key : String) (slave i : ℕ),
      transactsLocked [] (BoxSensorReader.read_temperature env key slave i).2 = true) ∧
    (∀ (env : ReadEnv) (key : String) (slave : ℕ),
      transactsLocked [] (BoxSensorReader.read_flow env key slave).2 = true) ∧
    (∀ (env : ReadEnv) (key : String) (t1s t2s fls : ℕ),
      transactsLocked [] (BoxSensorReader.read_all_sensors env key t1s t2s fls).2 = true) := by
  have hblock : ∀ k : String, transactsLocked []
      ([Ev.getClient k, Ev.acquire k, Ev.transact k, Ev.release k] ++
       [Ev.getClient k, Ev.acquire k, Ev.transact k, Ev.release k] ++
       [Ev.getClient k, Ev.acquire k, Ev.transact k, Ev.release k]) = true := by
    intro k
    simp [transactsLocked]
  refine ⟨?_, ?_, ?_⟩
  · intro env key slave i
    rw [read_temperature_trace]
    split_ifs with h
    · rfl
    · exact locked_block key
  · intro env key slave
    rw [read_flow_trace]
    split_ifs with h
    · rfl
    · exact locked_block key
  · intro env key t1s t2s fls
    have htr : (BoxSensorReader.read_all_sensors env key t1s t2s fls).2
        = (BoxSensorReader.read_temperature env key t1s 0).2 ++
          (BoxSensorReader.read_temperature env key t2s 0).2 ++
          (BoxSensorReader.read_flow env key fls).2 := rfl
    rw [htr, read_temperature_trace, read_temperature_trace, read_flow_trace]
    split_ifs with h
    · simp [transactsLocked]
    · exact hblock key

/-- Counterexample for C2 as stated: the power energy read issues its
register transaction with no lock held — its trace is
`[getClient, transact]` with no `acquire`, and fails the locking
discipline. -/
theorem claim_C2_counterexample :
    (PowerMeterReader.read_total_energy testReadEnvOk "ep" 1).2
      = [Ev.getClient "ep", Ev.transact "ep"] ∧
    transactsLocked [] [Ev.getClient "ep", Ev.transact "ep"] = false := by
  constructor
  · rfl
  · rfl

theorem collect_heatpump_disabled (envB : BoxEnv) (d : String)
    (cfg : BoxDeviceConfig) (pm : Option (List (String × PMVal)))
    (hcfg : envB.deviceConfig d = some cfg) (hen : cfg.enabled = false) :
    BoxSensorCollector.collect_heatpump envB d pm = (false, none) := by
  simp only [BoxSensorCollector.collect_heatpump, hcfg]
  rw [if_pos hen]

theorem read_all_meters_disabled_no_entry (env : ReadEnv) (key : String)
    (cfgs : List PowerMeterReader.MeterConfig) (d : String)
    (hall : ∀ mc ∈ cfgs, mc.device_id = d → mc.enabled = false) :
    alookup d (PowerMeterReader.read_all_meters env key cfgs) = none := by
  induction cfgs with
  | nil => rfl
  | cons mc rest ih =>
    have hrest : ∀ mc' ∈ rest, mc'.device_id = d → mc'.enabled = false :=
      fun mc' hm => hall mc' (List.mem_cons_of_mem _ hm)
    cases hb : mc.enabled with
    | false =>
      simpa [PowerMeterReader.read_all_meters, hb] using ih hrest
    | true =>
      have hne : mc.device_id ≠ d := by
        intro hdd
        have := hall mc (List.mem_cons_self _ _) hdd
        rw [hb] at this
        cases this
      cases hread : (PowerMeterReader.read_total_energy env key mc.slave_id).1 with
      | none =>
        simpa [PowerMeterReader.read_all_meters, hb, hread] using ih hrest
      | some e =>
        simpa [PowerMeterReader.read_all_meters, hb, hread, alookup, hne]
          using ih hrest

/-- Claim C3 (amended): a disabled power meter contributes no entry to the
map returned by `read_all_meters`.  A disabled box device is skipped —
nothing is read or persisted and its flag is `false` — but, unlike the
claim states, it still contributes a `false` entry to the map returned by
`collect_all_heatpumps`. -/
theorem claim_C3 :
    (∀ (env : ReadEnv) (key : String)
       (cfgs : List PowerMeterReader.MeterConfig) (d : String),
      (∀ mc ∈ cfgs, mc.device_id = d → mc.enabled = false) →
      alookup d (PowerMeterReader.read_all_meters env key cfgs) = none) ∧
    (∀ (envB : BoxEnv) (d : String) (cfg : BoxDeviceConfig)
       (pm : Option (List (String × PMVal))),
      envB.deviceConfig d = some cfg → cfg.enabled = false →
      BoxSensorCollector.collect_heatpump envB d pm = (false, none)) ∧
    (∀ (envB : BoxEnv) (ids : List (Option String))
       (pm : Option (List (String × PMVal))) (d : String) (cfg : BoxDeviceConfig),
      envB.deviceConfig d = some cfg → cfg.enabled = false →
      ∀ p ∈ (BoxSensorCollector.collect_all_heatpumps envB pm ids).1,
        p.1 = d → p.2 = false) := by
  refine ⟨read_all_meters_disabled_no_entry, collect_heatpump_disabled, ?_⟩
  intro envB ids pm d cfg hcfg hen
  induction ids with
  | nil => intro p hp; simp [BoxSensorCollector.collect_all_heatpumps] at hp
  | cons oid rest ih =>
    intro p hp hpd
    cases oid with
    | none =>
      exact ih p (by simpa [BoxSensorCollector.collect_all_heatpumps] using hp) hpd
    | some d' =>
      by_cases hd' : d' = ""
      · exact ih p
          (by simpa [BoxSensorCollector.collect_all_heatpumps, hd'] using hp) hpd
      · have hp' : p = (d', (BoxSensorCollector.collect_heatpump envB d' pm).1) ∨
            p ∈ (BoxSensorCollector.collect_all_heatpumps envB pm rest).1 := by
          simpa [BoxSensorCollector.collect_all_heatpumps, hd'] using hp
        rcases hp' with heq | htail
        · subst heq
          have hpd' : d' = d := hpd
          show (BoxSensorCollector.collect_heatpump envB d' pm).1 = false
          rw [hpd', collect_heatpump_disabled envB d cfg pm hcfg hen]
        · exact ih p htail hpd

/-- Counterexample for C3 as stated: with `HP_1` configured but disabled,
the box family's collection map still contains an entry for `HP_1` (with
value `false`), so the disabled device is not excluded from the result
map. -/
theorem claim_C3_counterexample :
    (BoxSensorCollector.collect_all_heatpumps testBoxEnvDisabled none
        [some "HP_1"]).1 = [("HP_1", false)] := by
  decide

/-- Witness for C3 applying the amended claim to a disabled meter and a
disabled box device. -/
theorem claim_C3_witness :
    (∀ mc ∈ testMeterConfigsDisabled, mc.device_id = "HP_1" → mc.enabled = false) ∧
    testBoxEnvDisabled.deviceConfig "HP_1" = some testBoxCfgDisabled ∧
    testBoxCfgDisabled.enabled = false ∧
    alookup "HP_1"
      (PowerMeterReader.read_all_meters testReadEnvOk "pk" testMeterConfigsDisabled)
      = none ∧
    BoxSensorCollector.collect_heatpump testBoxEnvDisabled "HP_1" none
      = (false, none) :=
  ⟨by decide, rfl, rfl,
   claim_C3.1 testReadEnvOk "pk" testMeterConfigsDisabled "HP_1" (by decide),
   claim_C3.2.1 testBoxEnvDisabled "HP_1" testBoxCfgDisabled none rfl rfl⟩

theorem alookup_aerase_self {α : Type} (key : String) (l : List (String × α)) :
    alookup key (aerase key l) = none := by
  induction l with
  | nil => rfl
  | cons p rest ih =>
    by_cases h : p.1 = key
    · simpa [aerase, List.filter_cons, h] using ih
    · simpa [aerase, List.filter_cons, h, alookup] using ih

theorem alookup_append_left_none {α : Type} (key : String)
    (l₁ l₂ : List (String × α)) (h : alookup key l₁ = none) :
    alookup key (l₁ ++ l₂) = alookup key l₂ := by
  induction l₁ with
  | nil => rfl
  | cons p rest ih =>
    by_cases hp : p.1 = key
    · simp [alookup, hp] at h
    · simp only [alookup, hp, if_false, List.cons_append] at h ⊢
      exact ih h

theorem alookup_aset_self {α : Type} (key : String) (v : α)
    (l : List (String × α)) :
    alookup key (aset key v l) = some v := by
  unfold aset
  rw [alookup_append_left_none key _ _ (alookup_aerase_self key l)]
  simp [alookup]

/-- Claim C7 (amended): a registered connected handle is returned unchanged
with the state untouched; otherwise, when the connect succeeds, a fresh
handle is registered together with a freshly created lock that replaces any
lock already registered for the endpoint (rather than being registered only
if absent); when the connect fails, no handle remains registered and `none`
is returned. -/
theorem claim_C7 (st : ManagerState) (key : String) (co : Bool) :
    (∀ c, alookup key st.clients = some c → c.connected = true →
      ModbusTcpManager.get_client st key co = (some c, st)) ∧
    ((alookup key st.clients = none ∨
        ∃ c, alookup key st.clients = some c ∧ c.connected = false) →
      co = true →
      ∃ st', ModbusTcpManager.get_client st key co = (some ⟨st.nextId, true⟩, st') ∧
        alookup key st'.clients = some ⟨st.nextId, true⟩ ∧
        alookup key st'.locks = some (st.nextId + 1) ∧
        ∀ lockOld : ℕ, lockOld < st.nextId →
          alookup key st'.locks ≠ some lockOld) ∧
    ((alookup key st.clients = none ∨
        ∃ c, alookup key st.clients = some c ∧ c.connected = false) →
      co = false →
      ∃ st', ModbusTcpManager.get_client st key co = (none, st') ∧
        alookup key st'.clients = none) := by
  refine ⟨?_, ?_, ?_⟩
  · intro c hc hconn
    simp [ModbusTcpManager.get_client, hc, hconn]
  · intro hdisc hco
    subst hco
    rcases hdisc with hnone | ⟨c, hc, hconn⟩
    · refine ⟨⟨aset key ⟨st.nextId, true⟩ st.clients,
               aset key (st.nextId + 1) st.locks, st.nextId + 2⟩,
        ?_, ?_, ?_, ?_⟩
      · simp [ModbusTcpManager.get_client, hnone, ModbusTcpManager.attempt_connect]
      · exact alookup_aset_self key _ _
      · exact alookup_aset_self key _ _
      · intro lockOld hlt heq
        rw [alookup_aset_self key _ _] at heq
        injection heq with h'
        omega
    · refine ⟨⟨aset key ⟨st.nextId, true⟩ (aerase key st.clients),
               aset key (st.nextId + 1) (aerase key st.locks), st.nextId + 2⟩,
        ?_, ?_, ?_, ?_⟩
      · simp [ModbusTcpManager.get_client, hc, hconn,
              ModbusTcpManager.attempt_connect]
      · exact alookup_aset_self key _ _
      · exact alookup_aset_self key _ _
      · intro lockOld hlt heq
        rw [alookup_aset_self key _ _] at heq
        injection heq with h'
        omega
  · intro hdisc hco
    subst hco
    rcases hdisc with hnone | ⟨c, hc, hconn⟩
    · exact ⟨st, by simp [ModbusTcpManager.get_client, hnone,
        ModbusTcpManager.attempt_connect], hnone⟩
    · refine ⟨⟨aerase key st.clients, aerase key st.locks, st.nextId⟩, ?_, ?_⟩
      · simp [ModbusTcpManager.get_client, hc, hconn,
              ModbusTcpManager.attempt_connect]
      · exact alookup_aerase_self key _
/-- Counterexample for C7 as stated: with a lock already registered for
endpoint `k` (lock 0) but no client, a successful `get_client` registers a
brand-new lock (lock 2) for `k`, replacing the existing one — the lock is
not "registered only if not already present". -/
theorem claim_C7_counterexample :
    alookup "k" testManagerState.locks = some 0 ∧
    ModbusTcpManager.get_client testManagerState "k" true
      = (some ⟨1, true⟩, ⟨[("k", ⟨1, true⟩)], [("k", 2)], 3⟩) ∧
    alookup "k"
      ((⟨[("k", ⟨1, true⟩)], [("k", 2)], 3⟩ : ManagerState)).locks = some 2 := by
  refine ⟨rfl, ?_, rfl⟩
  decide

/-- Witness for C7 at a registry holding a disconnected client for `k`,
with a successful reconnect. -/
theorem claim_C7_witness :
    (alookup "k" testManagerStateDisc.clients = none ∨
      ∃ c, alookup "k" testManagerStateDisc.clients = some c ∧
        c.connected = false) ∧
    (∃ st', ModbusTcpManager.get_client testManagerStateDisc "k" true
        = (some ⟨testManagerStateDisc.nextId, true⟩, st') ∧
      alookup "k" st'.clients = some ⟨testManagerStateDisc.nextId, true⟩ ∧
      alookup "k" st'.locks = some (testManagerStateDisc.nextId + 1) ∧
      ∀ lockOld : ℕ, lockOld < testManagerStateDisc.nextId →
        alookup "k" st'.locks ≠ some lockOld) :=
  ⟨Or.inr ⟨⟨0, false⟩, rfl, rfl⟩,
   (claim_C7 testManagerStateDisc "k" true).2.1
     (Or.inr ⟨⟨0, false⟩, rfl, rfl⟩) rfl⟩

/-- Claim C10: every entry of the map returned by `read_all_meters` comes
from an enabled configured meter whose energy read succeeded, and its
`total_energy` is present; disabled and failed meters contribute no
entry (their absence, not a null value, signals failure). -/
theorem claim_C10 (env : ReadEnv) (key : String)
    (cfgs : List PowerMeterReader.MeterConfig)
    (p : String × PowerMeterReader.PowerMeterData)
    (hp : p ∈ PowerMeterReader.read_all_meters env key cfgs) :
    p.2.total_energy ≠ none ∧
    ∃ mc ∈ cfgs, mc.enabled = true ∧ p.1 = mc.device_id ∧
      ∃ e, (PowerMeterReader.read_total_energy env key mc.slave_id).1 = some e ∧
        p.2 = ⟨mc.device_id, some e⟩ := by
  revert hp
  induction cfgs with
  | nil =>
    intro hp
    simp [PowerMeterReader.read_all_meters] at hp
  | cons mc rest ih =>
    intro hp
    cases hb : mc.enabled with
    | false =>
      have hp' : p ∈ PowerMeterReader.read_all_meters env key rest := by
        simpa [PowerMeterReader.read_all_meters, hb] using hp
      obtain ⟨hne, mc', hmem, hrest⟩ := ih hp'
      exact ⟨hne, mc', List.mem_cons_of_mem _ hmem, hrest⟩
    | true =>
      cases hread : (PowerMeterReader.read_total_energy env key mc.slave_id).1 with
      | none =>
        have hp' : p ∈ PowerMeterReader.read_all_meters env key rest := by
          simpa [PowerMeterReader.read_all_meters, hb, hread] using hp
        obtain ⟨hne, mc', hmem, hrest⟩ := ih hp'
        exact ⟨hne, mc', List.mem_cons_of_mem _ hmem, hrest⟩
      | some e =>
        have hp' : p = (mc.device_id, ⟨mc.device_id, some e⟩) ∨
            p ∈ PowerMeterReader.read_all_meters env key rest := by
          simpa [PowerMeterReader.read_all_meters, hb, hread] using hp
        rcases hp' with heq | htail
        · subst heq
          exact ⟨by simp, mc, List.mem_cons_self _ _, hb, rfl, e, hread, rfl⟩
        · obtain ⟨hne, mc', hmem, hrest⟩ := ih htail
          exact ⟨hne, mc', List.mem_cons_of_mem _ hmem, hrest⟩

/-- Witness for C10 at a one-meter configuration whose read succeeds. -/
theorem claim_C10_witness :
    (("HP_1", (⟨"HP_1", some ((((0 <<< 16) ||| 12345 : ℕ) : ℚ) * (1/100))⟩ :
        PowerMeterReader.PowerMeterData))
      ∈ PowerMeterReader.read_all_meters testPowerEnv "pk" testMeterConfigs) ∧
    ((⟨"HP_1", some ((((0 <<< 16) ||| 12345 : ℕ) : ℚ) * (1/100))⟩ :
        PowerMeterReader.PowerMeterData).total_energy ≠ none ∧
     ∃ mc ∈ testMeterConfigs, mc.enabled = true ∧
       ("HP_1", (⟨"HP_1", some ((((0 <<< 16) ||| 12345 : ℕ) : ℚ) * (1/100))⟩ :
           PowerMeterReader.PowerMeterData)).1 = mc.device_id ∧
       ∃ e, (PowerMeterReader.read_total_energy testPowerEnv "pk" mc.slave_id).1
           = some e ∧
         (⟨"HP_1", some ((((0 <<< 16) ||| 12345 : ℕ) : ℚ) * (1/100))⟩ :
             PowerMeterReader.PowerMeterData) = ⟨mc.device_id, some e⟩) :=
  ⟨by simp [PowerMeterReader.read_all_meters, PowerMeterReader.read_total_energy,
      testPowerEnv, testMeterConfigs],
   claim_C10 testPowerEnv "pk" testMeterConfigs
     ("HP_1", ⟨"HP_1", some ((((0 <<< 16) ||| 12345 : ℕ) : ℚ) * (1/100))⟩)
     (by simp [PowerMeterReader.read_all_meters, PowerMeterReader.read_total_energy,
        testPowerEnv, testMeterConfigs])⟩

/-- Claim C1 (code evaluation at the failing input): step 1 of one
orchestrator cycle captures energy 123.45 for device `HP_1`, yet the
heat-pump record persisted in step 2 of the same cycle carries no energy,
because `_collect_once` hands the box collector the power collector's
summary dictionary (keys `success_count`, `total_count`, `data`, `errors`)
where a per-device-id map is expected, so the device-id lookup never
hits. -/
theorem claim_C1 :
    alookup "HP_1"
        (PowerMeterReader.read_all_meters testPowerEnv "pk" testMeterConfigs)
      = some ⟨"HP_1", some ((((0 <<< 16) ||| 12345 : ℕ) : ℚ) * (1/100))⟩ ∧
    ((((0 <<< 16) ||| 12345 : ℕ) : ℚ) * (1/100)) = (12345 : ℚ) / 100 ∧
    (DataCollectionService.collect_once testPowerEnv "pk" testMeterConfigs
        (fun _ => true) testBoxEnv [some "HP_1"] []).2.1.2
      = [⟨"HP_1", some 0, none, none, none⟩] := by
  refine ⟨?_, ?_, ?_⟩
  · simp [PowerMeterReader.read_all_meters, PowerMeterReader.read_total_energy,
      testPowerEnv, testMeterConfigs, alookup]
  · norm_num
  · simp [DataCollectionService.collect_once, PowerMeterCollector.collect_all,
      PowerMeterReader.read_all_meters, PowerMeterReader.read_total_energy,
      BoxSensorCollector.collect_all, BoxSensorCollector.collect_all_heatpumps,
      BoxSensorCollector.collect_heatpump, BoxSensorCollector.collect_all_groundpipes,
      BoxSensorReader.read_all_sensors, BoxSensorReader.read_temperature,
      BoxSensorReader.read_flow, BoxProtocols.parse_temperature,
      BoxProtocols.parse_flow, testPowerEnv, testMeterConfigs, testBoxEnv,
      testBoxCfg, testReadEnvPartial, alookup, round2_zero,
      BoxSensorReader.endpointKey]

/-- Claim C9 (code evaluation at the failing input): in a power-meter cycle
where every device read fails the returned map is empty — zero device
successes — yet `PowerMeterService._collect_once` increments the success
counter, because it counts the non-None values of the collector's
four-entry summary dictionary.  A box-sensor cycle with zero successes,
by contrast, increments the fail counter as the claim states. -/
theorem claim_C9 :
    PowerMeterReader.read_all_meters testReadEnvFail "pk" testMeterConfigs = [] ∧
    PowerMeterCollector.collect_all testReadEnvFail "pk" testMeterConfigs
        (fun _ => true)
      = [("success_count", PMVal.cnt 0), ("total_count", PMVal.cnt 0),
         ("data", PMVal.dataList []), ("errors", PMVal.strList [])] ∧
    PowerMeterService.collect_once ⟨0, 0, 0, none⟩
        (.ok (PowerMeterCollector.collect_all testReadEnvFail "pk"
          testMeterConfigs (fun _ => true)))
      = ⟨1, 1, 0, none⟩ ∧
    BoxSensorService.collect_once ⟨0, 0, 0, none⟩
        (.ok (([("HP_1", false)], []), ([], [])))
      = ⟨1, 0, 1, none⟩ :=
  ⟨rfl, rfl, rfl, rfl⟩
